import Mathlib

/-!
Shallow embedding of `src/index.ts` (dfpc-coe/mbtiles-offline), the draft of
`MBTilesOffline` that uses an EventEmitter, a per-tile existence check and a
PromisePool (the spec adopts this concurrent, resumable draft as the intended
design).  JS numbers used as tile indices are modelled as `Int` (zoom as `Nat`,
since the data model fixes zoom >= 0); geographic coordinates are modelled as
`Rat` and the two Web-Mercator transforms `lonToTileX` / `latToTileY` (which
use `Math.log` / `Math.tan` on doubles) are kept as explicit function
parameters, since every claim refers to them symbolically.  SQLite tables are
modelled as association lists; the fetch endpoint is modelled as a function
from attempt number to the HTTP outcome of that attempt.
-/

/-- Byte sequences (`Buffer` contents / `BLOB`s). -/
abbrev Bytes := List Nat

/-- `interface Tile` from the source: request-scheme coordinates. -/
structure Tile where
  z : Nat
  x : Int
  y : Int
deriving DecidableEq, Repr

/-- `const MAX_RETRIES = 4` (per tile). -/
def MAX_RETRIES : Nat := 4

/-- `const INITIAL_DELAY_MS = 250`. -/
def INITIAL_DELAY_MS : Nat := 250

/-- Wrap an integer into the signed 32-bit range, as JS `ToInt32` does. -/
def toInt32 (n : Int) : Int := (n + 2 ^ 31) % 2 ^ 32 - 2 ^ 31

/-- JS `1 << z`: a 32-bit shift whose count is taken mod 32. -/
def jsOneShl (z : Nat) : Int := toInt32 (2 ^ (z % 32))

/-- `const tmsY = (1 << tile.z) - 1 - tile.y` (line 129 of the source); the
spec names this map `toArchiveRow`. -/
def toArchiveRow (z : Nat) (y : Int) : Int := jsOneShl z - 1 - y

/-- One row of the `tiles` table: `tiles (zoom_level, tile_column, tile_row,
tile_data)`; the schema lets `tile_data` be NULL, hence the `Option`. -/
structure TileRow where
  zoom_level : Nat
  tile_column : Int
  tile_row : Int
  tile_data : Option Bytes
deriving DecidableEq, Repr

/-- The uniqueness key of `tile_index`: `(zoom_level, tile_column, tile_row)`. -/
def rowKey (r : TileRow) : Nat × Int × Int := (r.zoom_level, r.tile_column, r.tile_row)

/-- Does a row match the queried key?  (the WHERE clause of `check` / the
conflict target of `tile_index`). -/
def keyMatches (z : Nat) (x y : Int) (r : TileRow) : Bool :=
  r.zoom_level == z && r.tile_column == x && r.tile_row == y

/-- `check.get(z, x, tmsY)`: `SELECT ... FROM tiles WHERE zoom_level = ? AND
tile_column = ? AND tile_row = ?` — at most one row matches under the unique
index; we return the first match. -/
def checkGet (db : List TileRow) (z : Nat) (x y : Int) : Option TileRow :=
  db.find? (keyMatches z x y)

/-- `stmt.run(z, x, tmsY, data)`: `INSERT OR REPLACE INTO tiles ...` — the
conflicting row (if any) is deleted and the fresh row inserted. -/
def upsertRow (db : List TileRow) (z : Nat) (x y : Int) (d : Option Bytes) : List TileRow :=
  ⟨z, x, y, d⟩ :: db.filter (fun r => !(keyMatches z x y r))

/-- JS truthiness of `checkResult && checkResult.tile_data` (line 133): a
missing row and a row whose `tile_data` is NULL are falsy; any byte array
object (even empty) is truthy. -/
def checkHit (r : Option TileRow) : Bool :=
  match r with
  | some row => row.tile_data.isSome
  | none => false

/-- The key-uniqueness invariant `tile_index` enforces: at most one row per
`(zoom_level, tile_column, tile_row)`. -/
def nodupKeys (db : List TileRow) : Prop := (db.map rowKey).Nodup

/-- Outcome of one `fetch(url)` call: an HTTP response (status plus body) or a
transport-level rejection. -/
inductive FetchResult where
  | response (status : Nat) (body : Bytes)
  | transportError
deriving DecidableEq, Repr

/-- undici `res.ok`: status in the 2xx range. -/
def resOk (st : Nat) : Bool := decide (200 ≤ st ∧ st < 300)

/-- What `downloadTile` does as a whole: return `Buffer | null`, or throw.
Throwing is reachable: the `catch (err)` block logs `error.message`, and
`error` is an undefined identifier, so a transport-level fetch failure raises
a ReferenceError out of `downloadTile` instead of retrying. -/
inductive DownloadOutcome where
  | returned (data : Option Bytes)
  | threw
deriving DecidableEq, Repr

/-- The retry loop of `downloadTile` (lines 159-180), from `attempt` with
`fuel` attempts left; also records the backoff delays actually slept.
`fuel = 0` is unreachable from `downloadTile` (guard only). -/
def downloadGo (resp : Nat → FetchResult) (attempt fuel : Nat) : DownloadOutcome × List Nat :=
  match fuel with
  | 0 => (DownloadOutcome.returned none, [])
  | f + 1 =>
    match resp attempt with
    | FetchResult.response st body =>
      if resOk st then (DownloadOutcome.returned (some body), [])
      else if st == 404 then (DownloadOutcome.returned none, [])
      else if f == 0 then (DownloadOutcome.returned none, [])
      else
        let next := downloadGo resp (attempt + 1) f
        (next.1, INITIAL_DELAY_MS * 2 ^ (attempt - 1) :: next.2)
    | FetchResult.transportError => (DownloadOutcome.threw, [])

/-- `downloadTile` (lines 156-183): attempts are numbered 1..MAX_RETRIES; the
result is what the promise settles to together with the list of backoff
delays slept between attempts. -/
def downloadTile (resp : Nat → FetchResult) : DownloadOutcome × List Nat :=
  downloadGo resp 1 MAX_RETRIES

/-- Check whether the pattern is a prefix of the character list. -/
def patAt : List Char → List Char → Bool
  | [], _ => true
  | _ :: _, [] => false
  | p :: ps, c :: cs => p == c && patAt ps cs

/-- Replace the first occurrence of `pat` (JS `String.prototype.replace` with
a string pattern replaces only the first occurrence). -/
def replaceFirstAux (pat rep : List Char) : List Char → List Char
  | [] => if patAt pat [] then rep else []
  | c :: rest =>
    if patAt pat (c :: rest) then rep ++ List.drop pat.length (c :: rest)
    else c :: replaceFirstAux pat rep rest

/-- JS `s.replace(pat, rep)` for string patterns. -/
def replaceFirst (s pat rep : String) : String :=
  ⟨replaceFirstAux pat.data rep.data s.data⟩

/-- Line 157: the request URL substitutes the request-scheme coordinates
(`tile.y`, never the flipped row). -/
def buildTileUrl (template : String) (tile : Tile) : String :=
  replaceFirst (replaceFirst (replaceFirst template "{z}" (toString tile.z))
    "{x}" (toString tile.x)) "{y}" (toString tile.y)

/-- Run events: `total`, `progress` (carrying `++progress`) and `error`. -/
inductive Event where
  | total (n : Nat)
  | progress (n : Nat)
  | error (t : Tile)
deriving DecidableEq, Repr

/-- Result of handling one tile (the `.process(async (tile) => ...)` body):
the tiles table afterwards, the progress counter afterwards, the events
emitted, and the fetch calls made (tile together with the URL requested). -/
structure StepResult where
  db : List TileRow
  prog : Nat
  events : List Event
  calls : List (Tile × String)
deriving Repr

/-- The per-tile worker body (lines 125-150).  On a truthy existence check the
tile is skipped with a progress event; otherwise `downloadTile` is invoked:
bytes are upserted and progress emitted, `null` yields progress plus an error
event, and a thrown error is swallowed by the `catch` (line 147) with no
event at all. -/
def processTile (resp : Nat → FetchResult) (template : String)
    (db : List TileRow) (p : Nat) (tile : Tile) : StepResult :=
  let tmsY : Int := toArchiveRow tile.z tile.y
  if checkHit (checkGet db tile.z tile.x tmsY) then
    ⟨db, p + 1, [Event.progress (p + 1)], []⟩
  else
    let url := buildTileUrl template tile
    match (downloadTile resp).1 with
    | DownloadOutcome.returned (some data) =>
      ⟨upsertRow db tile.z tile.x tmsY (some data), p + 1,
        [Event.progress (p + 1)], [(tile, url)]⟩
    | DownloadOutcome.returned none =>
      ⟨db, p + 1, [Event.progress (p + 1), Event.error tile], [(tile, url)]⟩
    | DownloadOutcome.threw =>
      ⟨db, p, [], [(tile, url)]⟩

/-- Drain a list of tiles through the per-tile worker.  The PromisePool runs
workers concurrently, but JS executes each handler's bookkeeping atomically
between awaits, so the progress counter is incremented exactly once per
settled tile; we model the serialized execution in enumeration order. -/
def processList (remote : Tile → Nat → FetchResult) (template : String)
    (tiles : List Tile) (db : List TileRow) (p : Nat) : StepResult :=
  match tiles with
  | [] => ⟨db, p, [], []⟩
  | t :: ts =>
    let r := processTile (remote t) template db p t
    let rest := processList remote template ts r.db r.prog
    ⟨rest.db, rest.prog, r.events ++ rest.events, r.calls ++ rest.calls⟩

/-- Inclusive integer range `a..b` (the JS idiom
`for (let v = a; v <= b; v++)`), empty when `b < a`. -/
def rangeIncl (a b : Int) : List Int :=
  (List.range (b - a + 1).toNat).map (fun i : Nat => a + (i : Int))

/-- `coverage(zoom, bounds)` (lines 185-201): `bounds` is
`(minLon, minLat, maxLon, maxLat)`; columns run from `lonToTileX minLon` to
`lonToTileX maxLon` and rows from `latToTileY maxLat` to `latToTileY minLat`,
yielded column-major. -/
def coverage (lonToTileX latToTileY : Rat → Nat → Int) (zoom : Nat)
    (bounds : Rat × Rat × Rat × Rat) : List Tile :=
  (rangeIncl (lonToTileX bounds.1 zoom) (lonToTileX bounds.2.2.1 zoom)).flatMap fun x =>
    (rangeIncl (latToTileY bounds.2.2.2 zoom) (latToTileY bounds.2.1 zoom)).map fun y =>
      ⟨zoom, x, y⟩

/-- `options` (`interface Config`): optional fields are absent (`none`) or
present with a possibly-falsy value. -/
structure Config where
  bounds : Rat × Rat × Rat × Rat
  minzoom : Nat
  maxzoom : Nat
  url : String
  output : String
  name : Option String
  version : Option String
  description : Option String
  concurrency : Option Int
deriving Repr

/-- The instance fields of `MBTilesOffline` after the constructor ran. -/
structure MBTilesOffline where
  bounds : Rat × Rat × Rat × Rat
  minzoom : Nat
  maxzoom : Nat
  url : String
  output : String
  name : String
  version : String
  description : String
  concurrency : Int
deriving Repr

/-- JS `v || d` for an optional string: `undefined` and `''` are falsy. -/
def jsOrString (v : Option String) (d : String) : String :=
  match v with
  | none => d
  | some s => if s = "" then d else s

/-- JS `v || d` for an optional number: `undefined` and `0` are falsy. -/
def jsOrInt (v : Option Int) (d : Int) : Int :=
  match v with
  | none => d
  | some n => if n = 0 then d else n

/-- The constructor (lines 46-61): plain copies for the required fields and
truthiness-based defaulting (`||`) for the optional ones. -/
def mkMBTilesOffline (options : Config) : MBTilesOffline :=
  ⟨options.bounds, options.minzoom, options.maxzoom, options.url, options.output,
    jsOrString options.name "Default Tileset",
    jsOrString options.version "1.0.0",
    jsOrString options.description "",
    jsOrInt options.concurrency 10⟩

/-- Comma-join of the bounds, `this.bounds.join(',')`. -/
def boundsJoin (b : Rat × Rat × Rat × Rat) : String :=
  toString b.1 ++ "," ++ toString b.2.1 ++ "," ++ toString b.2.2.1 ++ "," ++ toString b.2.2.2

/-- The seven metadata rows inserted by `start()` (lines 100-106), with plain
`INSERT INTO metadata` — the metadata table has no uniqueness constraint. -/
def metadataRows (self : MBTilesOffline) : List (String × String) :=
  [("name", self.name), ("version", self.version), ("description", self.description),
    ("format", "png"), ("minzoom", toString self.minzoom),
    ("maxzoom", toString self.maxzoom), ("bounds", boundsJoin self.bounds)]

/-- The SQLite file: the `metadata` and `tiles` tables.  `CREATE TABLE IF NOT
EXISTS` / `CREATE UNIQUE INDEX IF NOT EXISTS` preserve existing contents, so
opening an existing store keeps both lists. -/
structure Store where
  metadata : List (String × String)
  tiles : List TileRow
deriving Repr

/-- The ascending zoom range `minzoom..maxzoom` of the two loops in
`start()`, empty when `maxzoom < minzoom`. -/
def zoomRange (a b : Nat) : List Nat :=
  (List.range (b + 1 - a)).map (fun i => a + i)

/-- Every tile of the run, in dispatch order: the concatenation of the
zoom-level coverages. -/
def allTiles (lonToTileX latToTileY : Rat → Nat → Int) (self : MBTilesOffline) : List Tile :=
  (zoomRange self.minzoom self.maxzoom).flatMap fun z =>
    coverage lonToTileX latToTileY z self.bounds

/-- Observable result of one `start()` run. -/
structure RunResult where
  store : Store
  total : Nat
  prog : Nat
  events : List Event
  calls : List (Tile × String)
deriving Repr

/-- `start()` (lines 63-154): count the total by full enumeration, emit
`total`, ensure the schema, insert the metadata rows, then drain every
zoom level's coverage through the worker pool, and close. -/
def startRun (lonToTileX latToTileY : Rat → Nat → Int)
    (remote : Tile → Nat → FetchResult) (self : MBTilesOffline) (db : Store) : RunResult :=
  let ts := allTiles lonToTileX latToTileY self
  let total := ts.length
  let meta := db.metadata ++ metadataRows self
  let r := processList remote self.url ts db.tiles 0
  ⟨⟨meta, r.db⟩, total, r.prog, Event.total total :: r.events, r.calls⟩

/-- A transform that ignores its input, used for concrete runs. -/
def constTransform : Rat → Nat → Int := fun _ _ => 0

/-- A concrete one-tile configuration (bounds collapse to a single tile per
zoom under `constTransform`; minzoom = maxzoom = 0). -/
def sampleSelf : MBTilesOffline :=
  ⟨(0, 0, 0, 0), 0, 0, "u", "o", "Default Tileset", "1.0.0", "", 10⟩

/-- A pre-existing tiles row whose `tile_data` is NULL. -/
def nullDataRow : TileRow := ⟨0, 0, 0, none⟩

/-- How many metadata rows carry the given name. -/
def metadataCount (m : List (String × String)) (k : String) : Nat :=
  (m.filter (fun r => r.1 == k)).length

/-- The metadata table after running `start()` twice against the same
output store. -/
def twoRunsMetadata (lonToTileX latToTileY : Rat → Nat → Int)
    (remote : Tile → Nat → FetchResult) (self : MBTilesOffline) (db : Store) :
    List (String × String) :=
  (startRun lonToTileX latToTileY remote self
    (startRun lonToTileX latToTileY remote self db).store).store.metadata

/-- A `Config` whose optional fields are all present but falsy. -/
def falsyConfig : Config :=
  ⟨(0, 0, 0, 0), 0, 1, "https://t/{z}/{x}/{y}.png", "out.mbtiles",
    some "", some "", some "", some 0⟩

/-! ## Theorems -/

theorem jsOneShl_eq_pow (z : Nat) (hz : z ≤ 30) : jsOneShl z = 2 ^ z := by
  have hm : z % 32 = z := Nat.mod_eq_of_lt (by omega)
  have hle : (2 : Int) ^ z ≤ 2 ^ 30 := pow_le_pow_right₀ (by norm_num) hz
  have hpos : (0 : Int) < 2 ^ z := pow_pos (by norm_num) z
  unfold jsOneShl toInt32
  rw [hm, Int.emod_eq_of_lt (by positivity) (by norm_num at hle ⊢; omega)]
  ring

/-- C6: for all z >= 0 and rows y in the valid range, the archive-row flip of
the source (`tmsY = (1 << z) - 1 - y`, named `toArchiveRow` by the spec) is an
involution: applying it twice gives back y. -/
theorem c6_archive_row_involution (z : Nat) (y : Int)
    (h1 : 0 ≤ y) (h2 : y ≤ 2 ^ z - 1) :
    toArchiveRow z (toArchiveRow z y) = y := by
  unfold toArchiveRow
  ring

theorem c6_archive_row_involution_witness :
    0 ≤ (5 : Int) ∧ (5 : Int) ≤ 2 ^ 3 - 1 ∧ toArchiveRow 3 (toArchiveRow 3 5) = 5 :=
  ⟨by decide, by decide, c6_archive_row_involution 3 5 (by decide) (by decide)⟩

/-- C10: the constructor defaults by JS truthiness (`||`), not by presence: a
present-but-falsy concurrency 0 becomes 10, name '' becomes 'Default
Tileset', version '' becomes '1.0.0', description '' stays ''. -/
theorem c10_defaults_by_truthiness (cfg : Config)
    (h1 : cfg.concurrency = some 0) (h2 : cfg.name = some "")
    (h3 : cfg.version = some "") (h4 : cfg.description = some "") :
    (mkMBTilesOffline cfg).concurrency = 10 ∧
    (mkMBTilesOffline cfg).name = "Default Tileset" ∧
    (mkMBTilesOffline cfg).version = "1.0.0" ∧
    (mkMBTilesOffline cfg).description = "" := by
  simp [mkMBTilesOffline, jsOrString, jsOrInt, h1, h2, h3, h4]

theorem c10_defaults_by_truthiness_witness :
    falsyConfig.concurrency = some 0 ∧
    ((mkMBTilesOffline falsyConfig).concurrency = 10 ∧
      (mkMBTilesOffline falsyConfig).name = "Default Tileset" ∧
      (mkMBTilesOffline falsyConfig).version = "1.0.0" ∧
      (mkMBTilesOffline falsyConfig).description = "") :=
  ⟨rfl, c10_defaults_by_truthiness falsyConfig rfl rfl rfl rfl⟩

/-- C3 (code bug): a transport-level fetch error is NOT retried.  The `catch`
block of `downloadTile` logs `error.message`, but the caught binding is named
`err` and no `error` identifier is in scope, so the first transport error
raises a ReferenceError out of `downloadTile`: one attempt, no backoff delay,
and the promise rejects instead of settling to the Failed outcome `null`. -/
theorem c3_transport_error_not_retried :
    downloadTile (fun _ => FetchResult.transportError) = (DownloadOutcome.threw, []) := rfl

/-- C2 (code bug): on a one-tile run whose fetch attempt has a transport-level
error, the worker throws (see `c3_transport_error_not_retried`), the `catch`
in `start()` swallows the error, and no progress event is emitted for the
tile: the run ends with completed 0 while total is 1, so the completed count
never reaches the total. -/
theorem c2_progress_falls_short_of_total :
    (startRun constTransform constTransform (fun _ _ => FetchResult.transportError)
      sampleSelf ⟨[], []⟩).total = 1 ∧
    (startRun constTransform constTransform (fun _ _ => FetchResult.transportError)
      sampleSelf ⟨[], []⟩).prog = 0 ∧
    (startRun constTransform constTransform (fun _ _ => FetchResult.transportError)
      sampleSelf ⟨[], []⟩).events = [Event.total 1] := by
  refine ⟨rfl, rfl, rfl⟩

/-- C1 (counterexample): on a one-tile run whose fetch receives HTTP 404,
`downloadTile` returns the same `null` as an exhausted-retry failure, so
`start()` emits an error event for the tile — not only the progress event the
claim allows.  (No row is written, as the claim says.) -/
theorem c1_counterexample_404_emits_error :
    (startRun constTransform constTransform (fun _ _ => FetchResult.response 404 [])
      sampleSelf ⟨[], []⟩).events =
      [Event.total 1, Event.progress 1, Event.error ⟨0, 0, 0⟩] ∧
    (startRun constTransform constTransform (fun _ _ => FetchResult.response 404 [])
      sampleSelf ⟨[], []⟩).store.tiles = [] := by
  refine ⟨rfl, rfl⟩

/-- C1 (amended): for a tile missing from the store whose fetch receives HTTP
404 on the first attempt, the worker emits a progress event AND an error
event (the code cannot distinguish permanent absence from failure, both reach
it as `null`), and no row for the tile is written to the store. -/
theorem c1_amended_404_progress_and_error (resp : Nat → FetchResult)
    (template : String) (db : List TileRow) (p : Nat) (tile : Tile) (b : Bytes)
    (hmiss : checkHit (checkGet db tile.z tile.x (toArchiveRow tile.z tile.y)) = false)
    (h404 : resp 1 = FetchResult.response 404 b) :
    processTile resp template db p tile =
      ⟨db, p + 1, [Event.progress (p + 1), Event.error tile],
        [(tile, buildTileUrl template tile)]⟩ := by
  simp [processTile, hmiss, downloadTile, MAX_RETRIES, downloadGo, h404, resOk]

theorem c1_amended_404_progress_and_error_witness :
    checkHit (checkGet [] 0 0 (toArchiveRow 0 0)) = false ∧
    processTile (fun _ => FetchResult.response 404 []) "u" [] 0 ⟨0, 0, 0⟩ =
      ⟨[], 1, [Event.progress 1, Event.error ⟨0, 0, 0⟩],
        [(⟨0, 0, 0⟩, buildTileUrl "u" ⟨0, 0, 0⟩)]⟩ :=
  ⟨rfl, c1_amended_404_progress_and_error (fun _ => FetchResult.response 404 [])
    "u" [] 0 ⟨0, 0, 0⟩ [] rfl rfl⟩

/-- C4 (counterexample): the store holds a row under the tile's ArchiveKey
(0,0,0), but its `tile_data` is NULL, so the truthiness check
`checkResult && checkResult.tile_data` fails and the fetcher IS invoked for
the tile, contradicting the claim as stated. -/
theorem c4_counterexample_null_data_refetched :
    checkGet [nullDataRow] 0 0 (toArchiveRow 0 0) = some nullDataRow ∧
    ((startRun constTransform constTransform (fun _ _ => FetchResult.response 200 [1])
      sampleSelf ⟨[], [nullDataRow]⟩).calls.map Prod.fst) = [⟨0, 0, 0⟩] := by
  refine ⟨rfl, rfl⟩

/-- C4 (amended): if the store already contains a row with non-NULL
`tile_data` under the tile's ArchiveKey, the fetcher is not invoked (no fetch
call is recorded) and the tile still increments the progress count. -/
theorem c4_amended_skip_requires_data (resp : Nat → FetchResult)
    (template : String) (db : List TileRow) (p : Nat) (tile : Tile)
    (row : TileRow) (b : Bytes)
    (hrow : checkGet db tile.z tile.x (toArchiveRow tile.z tile.y) = some row)
    (hdata : row.tile_data = some b) :
    processTile resp template db p tile = ⟨db, p + 1, [Event.progress (p + 1)], []⟩ := by
  simp [processTile, checkHit, hrow, hdata]

theorem c4_amended_skip_requires_data_witness :
    checkGet [(⟨0, 0, 0, some [1]⟩ : TileRow)] 0 0 (toArchiveRow 0 0) =
      some ⟨0, 0, 0, some [1]⟩ ∧
    processTile (fun _ => FetchResult.response 200 [2]) "u"
      [⟨0, 0, 0, some [1]⟩] 0 ⟨0, 0, 0⟩ =
      ⟨[⟨0, 0, 0, some [1]⟩], 1, [Event.progress 1], []⟩ :=
  ⟨rfl, c4_amended_skip_requires_data (fun _ => FetchResult.response 200 [2]) "u"
    [⟨0, 0, 0, some [1]⟩] 0 ⟨0, 0, 0⟩ ⟨0, 0, 0, some [1]⟩ [1] rfl rfl⟩

/-- C5: upsert twice with the same key and bytes leaves exactly the state of
upserting once; afterwards the existence check for that key is true; and the
upsert preserves the uniqueness invariant of `tile_index` — at most one row
per `(zoom_level, tile_column, tile_row)`. -/
theorem c5_upsert_idempotent_exists_unique (db : List TileRow) (z : Nat)
    (x y : Int) (d : Bytes) (hnd : nodupKeys db) :
    upsertRow (upsertRow db z x y (some d)) z x y (some d) = upsertRow db z x y (some d) ∧
    checkHit (checkGet (upsertRow db z x y (some d)) z x y) = true ∧
    nodupKeys (upsertRow db z x y (some d)) := by
  have hself : keyMatches z x y ⟨z, x, y, some d⟩ = true := by simp [keyMatches]
  refine ⟨?_, ?_, ?_⟩
  · simp [upsertRow, List.filter_cons, hself, List.filter_filter]
  · simp [upsertRow, checkGet, checkHit, List.find?_cons, hself]
  · have hsub : ((db.filter (fun r => !(keyMatches z x y r))).map rowKey).Nodup :=
      hnd.sublist ((List.filter_sublist db).map rowKey)
    simp only [nodupKeys, upsertRow, List.map_cons, List.nodup_cons]
    refine ⟨?_, hsub⟩
    intro hmem
    simp only [List.mem_map] at hmem
    obtain ⟨r, hr, hkey⟩ := hmem
    have h1 := (List.mem_filter.mp hr).2
    simp only [rowKey, Prod.mk.injEq] at hkey
    obtain ⟨e1, e2, e3⟩ := hkey
    simp [keyMatches, e1, e2, e3] at h1

theorem c5_upsert_idempotent_exists_unique_witness :
    nodupKeys [nullDataRow] ∧
    (upsertRow (upsertRow [nullDataRow] 1 2 3 (some [7])) 1 2 3 (some [7]) =
        upsertRow [nullDataRow] 1 2 3 (some [7]) ∧
      checkHit (checkGet (upsertRow [nullDataRow] 1 2 3 (some [7])) 1 2 3) = true ∧
      nodupKeys (upsertRow [nullDataRow] 1 2 3 (some [7]))) :=
  ⟨by simp [nodupKeys], c5_upsert_idempotent_exists_unique [nullDataRow] 1 2 3 [7]
    (by simp [nodupKeys])⟩

/-- C9: the seven metadata rows are inserted with plain INSERT on every run
(the metadata table has no uniqueness constraint), so after two runs of
`start()` against the same store each of the seven metadata names appears at
least twice. -/
theorem c9_metadata_inserted_again (ltx lty : Rat → Nat → Int)
    (remote : Tile → Nat → FetchResult) (self : MBTilesOffline) (db : Store) :
    2 ≤ metadataCount (twoRunsMetadata ltx lty remote self db) "name" ∧
    2 ≤ metadataCount (twoRunsMetadata ltx lty remote self db) "version" ∧
    2 ≤ metadataCount (twoRunsMetadata ltx lty remote self db) "description" ∧
    2 ≤ metadataCount (twoRunsMetadata ltx lty remote self db) "format" ∧
    2 ≤ metadataCount (twoRunsMetadata ltx lty remote self db) "minzoom" ∧
    2 ≤ metadataCount (twoRunsMetadata ltx lty remote self db) "maxzoom" ∧
    2 ≤ metadataCount (twoRunsMetadata ltx lty remote self db) "bounds" := by
  have hm : twoRunsMetadata ltx lty remote self db =
      db.metadata ++ (metadataRows self ++ metadataRows self) := by
    simp [twoRunsMetadata, startRun]
  refine ⟨?_, ?_, ?_, ?_, ?_, ?_, ?_⟩ <;>
    simp [hm, metadataCount, metadataRows, List.filter_append]

/-- C7 (counterexample): at zoom 31 the claim's store-write key
`2^z - 1 - tile.y` is NOT what the code uses: `1 << 31` wraps to `-2^31` in
JS 32-bit arithmetic, so the worker writes the row under
`(31, 0, -2^31 - 1 - 0) = (31, 0, -2147483649)`, which differs from the
claimed `2^31 - 1 - 0`. -/
theorem c7_counterexample_wrap_at_z31 :
    (processTile (fun _ => FetchResult.response 200 [1]) "u" [] 0 ⟨31, 0, 0⟩).db =
      [⟨31, 0, -2147483649, some [1]⟩] ∧
    (-2147483649 : Int) ≠ 2 ^ 31 - 1 - 0 :=
  ⟨rfl, by decide⟩

/-- C7 (amended): for every tile with z <= 30 (below the JS 32-bit shift
wrap), the flip is applied exactly once, at the store-write boundary: on a
miss the worker fetches `buildTileUrl template tile` (whose `{y}` slot is the
request-scheme `tile.y`) and writes the row under
`(tile.z, tile.x, 2^z - 1 - tile.y)`; and the skip decision itself keys the
existence check on that same flipped row. -/
theorem c7_flip_only_at_store_write (resp : Nat → FetchResult) (template : String)
    (db : List TileRow) (p : Nat) (tile : Tile) (b : Bytes)
    (hz : tile.z ≤ 30) (hok : resp 1 = FetchResult.response 200 b) :
    (checkHit (checkGet db tile.z tile.x (2 ^ tile.z - 1 - tile.y)) = false →
      processTile resp template db p tile =
        ⟨upsertRow db tile.z tile.x (2 ^ tile.z - 1 - tile.y) (some b), p + 1,
          [Event.progress (p + 1)], [(tile, buildTileUrl template tile)]⟩) ∧
    (checkHit (checkGet db tile.z tile.x (2 ^ tile.z - 1 - tile.y)) = true →
      processTile resp template db p tile =
        ⟨db, p + 1, [Event.progress (p + 1)], []⟩) := by
  have hflip : toArchiveRow tile.z tile.y = 2 ^ tile.z - 1 - tile.y := by
    rw [toArchiveRow, jsOneShl_eq_pow tile.z hz]
  constructor <;> intro h <;>
    simp [processTile, hflip, h, downloadTile, MAX_RETRIES, downloadGo, hok, resOk]

theorem c7_flip_only_at_store_write_witness :
    (1 : Nat) ≤ 30 ∧
    ((checkHit (checkGet [] 1 0 (2 ^ 1 - 1 - 1)) = false →
      processTile (fun _ => FetchResult.response 200 [7]) "{z}/{x}/{y}" [] 0 ⟨1, 0, 1⟩ =
        ⟨upsertRow [] 1 0 (2 ^ 1 - 1 - 1) (some [7]), 1, [Event.progress 1],
          [(⟨1, 0, 1⟩, buildTileUrl "{z}/{x}/{y}" ⟨1, 0, 1⟩)]⟩) ∧
    (checkHit (checkGet [] 1 0 (2 ^ 1 - 1 - 1)) = true →
      processTile (fun _ => FetchResult.response 200 [7]) "{z}/{x}/{y}" [] 0 ⟨1, 0, 1⟩ =
        ⟨[], 1, [Event.progress 1], []⟩)) :=
  ⟨by decide, c7_flip_only_at_store_write (fun _ => FetchResult.response 200 [7])
    "{z}/{x}/{y}" [] 0 ⟨1, 0, 1⟩ [7] (by decide) rfl⟩

theorem mem_rangeIncl (a b t : Int) : t ∈ rangeIncl a b ↔ a ≤ t ∧ t ≤ b := by
  simp only [rangeIncl, List.mem_map, List.mem_range]
  constructor
  · rintro ⟨i, hi, rfl⟩
    omega
  · intro h
    exact ⟨(t - a).toNat, by omega, by omega⟩

theorem nodup_rangeIncl (a b : Int) : (rangeIncl a b).Nodup := by
  rw [rangeIncl]
  refine List.Nodup.map ?_ (List.nodup_range _)
  intro i j h
  simp only at h
  omega

theorem mem_coverage (ltx lty : Rat → Nat → Int) (z : Nat)
    (bounds : Rat × Rat × Rat × Rat) (t : Tile) :
    t ∈ coverage ltx lty z bounds ↔
      t.z = z ∧ ltx bounds.1 z ≤ t.x ∧ t.x ≤ ltx bounds.2.2.1 z ∧
        lty bounds.2.2.2 z ≤ t.y ∧ t.y ≤ lty bounds.2.1 z := by
  simp only [coverage, List.mem_flatMap, List.mem_map, mem_rangeIncl]
  constructor
  · rintro ⟨x, hx, y, hy, rfl⟩
    exact ⟨rfl, hx.1, hx.2, hy.1, hy.2⟩
  · rintro ⟨hz, hx1, hx2, hy1, hy2⟩
    refine ⟨t.x, ⟨hx1, hx2⟩, t.y, ⟨hy1, hy2⟩, ?_⟩
    cases t
    cases hz
    rfl

theorem nodup_coverage (ltx lty : Rat → Nat → Int) (z : Nat)
    (bounds : Rat × Rat × Rat × Rat) : (coverage ltx lty z bounds).Nodup := by
  rw [coverage, List.nodup_flatMap]
  constructor
  · intro x hx
    refine (nodup_rangeIncl _ _).map ?_
    intro y1 y2 h
    exact congrArg Tile.y h
  · refine List.Pairwise.imp ?_ (nodup_rangeIncl _ _)
    intro x1 x2 hne t ht1 ht2
    simp only [List.mem_map] at ht1 ht2
    obtain ⟨y1, hy1, rfl⟩ := ht1
    obtain ⟨y2, hy2, he⟩ := ht2
    exact hne (congrArg Tile.x he).symm

theorem sum_map_const_nat (l : List α) (c : Nat) :
    (l.map (fun _ => c)).sum = l.length * c := by
  induction l with
  | nil => simp
  | cons a l ih => simp [ih, Nat.succ_mul, Nat.add_comm]

theorem length_coverage (ltx lty : Rat → Nat → Int) (z : Nat)
    (bounds : Rat × Rat × Rat × Rat) :
    (coverage ltx lty z bounds).length =
      (rangeIncl (ltx bounds.1 z) (ltx bounds.2.2.1 z)).length *
      (rangeIncl (lty bounds.2.2.2 z) (lty bounds.2.1 z)).length := by
  rw [coverage, List.length_flatMap]
  simp only [Function.comp_def, List.length_map]
  rw [sum_map_const_nat]

theorem length_allTiles (ltx lty : Rat → Nat → Int) (self : MBTilesOffline) :
    (allTiles ltx lty self).length =
      ((zoomRange self.minzoom self.maxzoom).map (fun z =>
        (rangeIncl (ltx self.bounds.1 z) (ltx self.bounds.2.2.1 z)).length *
        (rangeIncl (lty self.bounds.2.2.2 z) (lty self.bounds.2.1 z)).length)).sum := by
  rw [allTiles, List.length_flatMap]
  simp only [Function.comp_def, length_coverage]

/-- C8: coverage enumerates exactly the rectangle of columns
`lonToTileX minLon .. lonToTileX maxLon` by rows
`latToTileY maxLat .. latToTileY minLat` (each coordinate once — coverage is
a pure function, so the order is the same stable column-major order on every
call), and `start()` emits, before anything else, a total equal to the sum of
the rectangle sizes over all zooms in `minzoom..maxzoom`. -/
theorem c8_coverage_rectangle_and_total (ltx lty : Rat → Nat → Int)
    (remote : Tile → Nat → FetchResult) (self : MBTilesOffline) (db : Store)
    (hlon : self.bounds.1 ≤ self.bounds.2.2.1)
    (hlat : self.bounds.2.1 ≤ self.bounds.2.2.2) :
    (∀ z t, t ∈ coverage ltx lty z self.bounds ↔
      (t.z = z ∧ ltx self.bounds.1 z ≤ t.x ∧ t.x ≤ ltx self.bounds.2.2.1 z ∧
        lty self.bounds.2.2.2 z ≤ t.y ∧ t.y ≤ lty self.bounds.2.1 z)) ∧
    (∀ z, (coverage ltx lty z self.bounds).Nodup) ∧
    (∃ rest, (startRun ltx lty remote self db).events =
      Event.total (((zoomRange self.minzoom self.maxzoom).map (fun z =>
        (rangeIncl (ltx self.bounds.1 z) (ltx self.bounds.2.2.1 z)).length *
        (rangeIncl (lty self.bounds.2.2.2 z) (lty self.bounds.2.1 z)).length)).sum) :: rest) := by
  refine ⟨fun z t => mem_coverage ltx lty z self.bounds t,
    fun z => nodup_coverage ltx lty z self.bounds, ?_⟩
  refine ⟨(processList remote self.url (allTiles ltx lty self) db.tiles 0).events, ?_⟩
  simp only [startRun]
  rw [length_allTiles]

theorem c8_coverage_rectangle_and_total_witness :
    sampleSelf.bounds.1 ≤ sampleSelf.bounds.2.2.1 ∧
    sampleSelf.bounds.2.1 ≤ sampleSelf.bounds.2.2.2 ∧
    ((∀ z t, t ∈ coverage constTransform constTransform z sampleSelf.bounds ↔
      (t.z = z ∧ constTransform sampleSelf.bounds.1 z ≤ t.x ∧
        t.x ≤ constTransform sampleSelf.bounds.2.2.1 z ∧
        constTransform sampleSelf.bounds.2.2.2 z ≤ t.y ∧
        t.y ≤ constTransform sampleSelf.bounds.2.1 z)) ∧
    (∀ z, (coverage constTransform constTransform z sampleSelf.bounds).Nodup) ∧
    (∃ rest, (startRun constTransform constTransform
        (fun _ _ => FetchResult.response 200 [1]) sampleSelf ⟨[], []⟩).events =
      Event.total (((zoomRange sampleSelf.minzoom sampleSelf.maxzoom).map (fun z =>
        (rangeIncl (constTransform sampleSelf.bounds.1 z)
          (constTransform sampleSelf.bounds.2.2.1 z)).length *
        (rangeIncl (constTransform sampleSelf.bounds.2.2.2 z)
          (constTransform sampleSelf.bounds.2.1 z)).length)).sum) :: rest)) :=
  ⟨by decide, by decide, c8_coverage_rectangle_and_total constTransform constTransform
    (fun _ _ => FetchResult.response 200 [1]) sampleSelf ⟨[], []⟩ (by decide) (by decide)⟩
